import Mathlib

/-!
Verification development for the dfpipe staged data-transformation engine.

The repository's implementation modules (dfpipe/core/base.py,
dfpipe/core/registry.py, dfpipe/core/pipeline.py and
dfpipe/processors/base_processor.py) are not present under src/; only their
tests are.  The definitions below are therefore modelled from the
specification (spec.md), with the unit tests in src/tests used to pin down
the concrete behaviour the spec describes.  Python exceptions are modelled
with Except / Option: a user-supplied callable is a function into Option,
where none means the callable raised.
-/

/-- Scalar cell value of a tabular dataset: the model covers the integer and
string scalars exercised by the repository's tests. -/
inductive Val where
  | vint (n : Int)
  | vstr (s : String)
deriving DecidableEq, Repr

/-- Modelled from the spec: the Tabular Dataset (spec section 3) that flows
between stages — an ordered sequence of named columns, each a sequence of
scalar values.  This stands in for the pandas DataFrame used by the missing
implementation modules. -/
structure DataFrame where
  cols : List (String × List Val)
deriving DecidableEq, Repr

/-- Association-list lookup by key (first match), used to model Python dict
lookup throughout. -/
def alistLookup {β : Type} (m : List (String × β)) (k : String) : Option β :=
  match m.find? (fun kv => kv.1 == k) with
  | some kv => some kv.2
  | none => none

/-- The cells of a named column, or none when the column is absent. -/
def DataFrame.getCol (d : DataFrame) (name : String) : Option (List Val) :=
  alistLookup d.cols name

/-- Whether a named column is present in the dataset. -/
def DataFrame.hasCol (d : DataFrame) (name : String) : Bool :=
  (d.getCol name).isSome

/-- The column names of the dataset, in order. -/
def DataFrame.colNames (d : DataFrame) : List String :=
  d.cols.map (fun nc => nc.1)

/-- The number of rows: the length of the first column (0 for a dataset with
no columns), mirroring the row count of a well-formed pandas DataFrame. -/
def DataFrame.numRows (d : DataFrame) : Nat :=
  match d.cols with
  | [] => 0
  | nc :: _ => nc.2.length

/-- Modelled from the spec: the pandas-style emptiness test used by the
pipeline's short-circuit (spec section 4.4 steps 3 and 5) — a dataset is
empty when it has zero rows or zero columns. -/
def DataFrame.isEmpty (d : DataFrame) : Bool :=
  d.cols.isEmpty || d.numRows == 0

/-- All-or-nothing cell-wise application, modelling pandas Series.apply with
a user callable that may raise: if the callable raises (returns none) on any
cell, the whole application raises (returns none). -/
def mapOption {α β : Type} (f : α → Option β) : List α → Option (List β)
  | [] => some []
  | x :: xs =>
    match f x, mapOption f xs with
    | some y, some ys => some (y :: ys)
    | _, _ => none

/-- A filter condition: either a scalar compared by equality, or a
one-argument user predicate over a single cell (none models a raised
exception). -/
inductive Condition where
  | value (v : Val)
  | pred (f : Val → Option Bool)

/-- Evaluate a condition on one cell; none models an exception escaping the
user callable. -/
def Condition.eval : Condition → Val → Option Bool
  | .value v, c => some (c == v)
  | .pred f, c => f c

/-- Keep exactly the cells whose mask entry is true (row selection by boolean
mask, as in pandas data[mask]). -/
def applyMask (mask : List Bool) : List Val → List Val
  | [] => []
  | c :: cs =>
    match mask with
    | [] => []
    | b :: bs => if b then c :: applyMask bs cs else applyMask bs cs

/-- Modelled from the spec: the Row Filter transformer (spec section 4.3),
whose implementation file dfpipe/processors/base_processor.py is missing from
src/.  Configured with a column and a condition. -/
structure FilterProcessor where
  column : String
  condition : Condition

/-- Modelled from the spec: Row Filter processing — if the column is absent,
return the input unchanged; otherwise evaluate the condition row-wise and,
on any evaluation exception, return the input unchanged (all-or-nothing). -/
def FilterProcessor.process (p : FilterProcessor) (d : DataFrame) : DataFrame :=
  match d.getCol p.column with
  | none => d
  | some cells =>
    match mapOption p.condition.eval cells with
    | none => d
    | some mask => ⟨d.cols.map (fun nc => (nc.1, applyMask mask nc.2))⟩

/-- Modelled from the spec: the Value Mapper transformer (spec section 4.3),
whose implementation file is missing from src/.  Configured with a column, a
cell-wise user function (none models a raised exception) and an optional
target column. -/
structure TransformProcessor where
  column : String
  transform_func : Val → Option Val
  target_column : Option String

/-- Replace the cells of an existing column in place, or append a new column
at the end (pandas-style column assignment). -/
def DataFrame.setCol (d : DataFrame) (name : String) (cells : List Val) : DataFrame :=
  if d.hasCol name then
    ⟨d.cols.map (fun nc => if nc.1 == name then (name, cells) else nc)⟩
  else
    ⟨d.cols ++ [(name, cells)]⟩

/-- Modelled from the spec: Value Mapper processing — if the column is
absent, return the input unchanged; apply the function cell-wise and write
the results back into the column (default) or into the target column; on any
exception during the cell-wise application, return the input unchanged. -/
def TransformProcessor.process (p : TransformProcessor) (d : DataFrame) : DataFrame :=
  match d.getCol p.column with
  | none => d
  | some cells =>
    match mapOption p.transform_func cells with
    | none => d
    | some newCells =>
      match p.target_column with
      | none => d.setCol p.column newCells
      | some t => d.setCol t newCells

/-- Python exception classes relevant to the spec: ValueError (configuration
errors; UnknownComponentError is ValueError-class per the registry tests) and
TypeError (abstract-class instantiation). -/
inductive PyErr where
  | valueError (msg : String)
  | typeError (msg : String)
deriving DecidableEq, Repr

/-- One row of a dataset, as the name-to-cell association a row-wise user
function receives. -/
def DataFrame.rowAt (d : DataFrame) (i : Nat) : List (String × Val) :=
  d.cols.map (fun nc => (nc.1, nc.2.getD i (Val.vstr "")))

/-- All rows of the dataset, in order. -/
def DataFrame.rows (d : DataFrame) : List (List (String × Val)) :=
  (List.range d.numRows).map d.rowAt

/-- The value parameter of a Column Editor add operation: either a constant
broadcast to all rows, or a row-wise user function producing one value per
row (none models a raised exception). -/
inductive ColValue where
  | const (v : Val)
  | func (f : List (String × Val) → Option Val)

/-- The keyword parameters a Column Editor can be constructed with; a none
field models an absent keyword argument. -/
structure ColumnParams where
  column : Option String
  value : Option ColValue
  columns : Option (List String)
  mapping : Option (List (String × String))

/-- Modelled from the spec: the Column Editor transformer (spec section 4.3),
whose implementation file dfpipe/processors/base_processor.py is missing from
src/.  Holds the operation string and the constructor parameters. -/
structure ColumnProcessor where
  operation : String
  params : ColumnParams

/-- Modelled from the spec: Column Editor construction-time validation — an
operation outside add/drop/rename, or a missing required parameter for the
chosen operation (column for add, columns for drop, mapping for rename),
fails construction with a ValueError. -/
def ColumnProcessor.mk? (operation : String) (params : ColumnParams) :
    Except PyErr ColumnProcessor :=
  if operation = "add" then
    if params.column.isNone then
      Except.error (PyErr.valueError "add operation requires the column parameter")
    else Except.ok ⟨operation, params⟩
  else if operation = "drop" then
    if params.columns.isNone then
      Except.error (PyErr.valueError "drop operation requires the columns parameter")
    else Except.ok ⟨operation, params⟩
  else if operation = "rename" then
    if params.mapping.isNone then
      Except.error (PyErr.valueError "rename operation requires the mapping parameter")
    else Except.ok ⟨operation, params⟩
  else Except.error (PyErr.valueError ("Unsupported operation: " ++ operation))

/-- Rename one column name through the effective mapping, leaving unmapped
names unchanged (pandas DataFrame.rename semantics). -/
def renameName (valid : List (String × String)) (n : String) : String :=
  (alistLookup valid n).getD n

/-- Modelled from the spec: Column Editor processing (spec section 4.3) —
add broadcasts a constant or applies a row-wise function (empty column name
or a raising function leaves the input unchanged); drop removes exactly the
present subset of the requested names; rename applies only the mapping keys
present as columns and leaves the input unchanged when the effective mapping
is empty. -/
def ColumnProcessor.process (p : ColumnProcessor) (d : DataFrame) : DataFrame :=
  if p.operation = "add" then
    match p.params.column with
    | none => d
    | some col =>
      if col = "" then d
      else
        match p.params.value with
        | none => d
        | some (ColValue.const v) => d.setCol col (List.replicate d.numRows v)
        | some (ColValue.func f) =>
          match mapOption f d.rows with
          | none => d
          | some cells => d.setCol col cells
  else if p.operation = "drop" then
    match p.params.columns with
    | none => d
    | some names => ⟨d.cols.filter (fun nc => ! names.contains nc.1)⟩
  else if p.operation = "rename" then
    match p.params.mapping with
    | none => d
    | some mapping =>
      let valid := mapping.filter (fun kv => d.hasCol kv.1)
      if valid.isEmpty then d
      else ⟨d.cols.map (fun nc => (renameName valid nc.1, nc.2))⟩
  else d

/-- Modelled from the spec: the Fields Organizer transformer (spec section
4.3), whose implementation file is missing from src/. -/
structure FieldsOrganizer where
  target_columns : List String
  default_values : List (String × Val)

/-- Modelled from the spec: Fields Organizer construction fails with a
ValueError if target_columns is empty. -/
def FieldsOrganizer.mk? (tc : List String) (dv : List (String × Val)) :
    Except PyErr FieldsOrganizer :=
  if tc.isEmpty then
    Except.error (PyErr.valueError "target_columns must be a non-empty list")
  else Except.ok ⟨tc, dv⟩

/-- The fill value for a target column absent from the input: the configured
default if provided, else the empty string. -/
def FieldsOrganizer.defaultFor (f : FieldsOrganizer) (name : String) : Val :=
  (alistLookup f.default_values name).getD (Val.vstr "")

/-- Modelled from the spec: Fields Organizer processing — the output has
exactly target_columns in that order; a target column present in the input
is copied verbatim, an absent one is synthesized from its default value (or
the empty string) repeated for every row. -/
def FieldsOrganizer.process (f : FieldsOrganizer) (d : DataFrame) : DataFrame :=
  ⟨f.target_columns.map (fun name =>
    match d.getCol name with
    | some cells => (name, cells)
    | none => (name, List.replicate d.numRows (f.defaultFor name)))⟩

/-- A constructed component instance: records which class built it and the
keyword arguments it was initialized with. -/
structure PyObject where
  cls : String
  kwargs : List (String × Val)
deriving DecidableEq, Repr

/-- A registrable component class: its Python dunder name attribute and its
constructor (keyword arguments to instance). -/
structure PyClass where
  name : String
  construct : List (String × Val) → PyObject

/-- Python-dict assignment on an association list: overwrite the value of an
existing key in place, otherwise append the new entry at the end (dict
insertion-order semantics). -/
def dictSet {β : Type} (m : List (String × β)) (k : String) (v : β) :
    List (String × β) :=
  if m.any (fun kv => kv.1 == k) then
    m.map (fun kv => if kv.1 == k then (k, v) else kv)
  else m ++ [(k, v)]

/-- Modelled from the spec: the Component Registry (spec section 4.2), whose
implementation file dfpipe/core/registry.py is missing from src/ — three
independent name-to-constructor mappings, one per role. -/
structure ComponentRegistry where
  loaders : List (String × PyClass)
  processors : List (String × PyClass)
  writers : List (String × PyClass)

/-- Modelled from the spec: register_loader records the class in the loader
mapping under the key derived from the class's own name attribute and hands
the class back unchanged (decorator usage).  The updated registry is
returned explicitly because the Python original mutates class-level state. -/
def ComponentRegistry.register_loader (r : ComponentRegistry) (cls : PyClass) :
    ComponentRegistry × PyClass :=
  (⟨dictSet r.loaders cls.name cls, r.processors, r.writers⟩, cls)

/-- Modelled from the spec: register_processor, as register_loader but for
the processor role. -/
def ComponentRegistry.register_processor (r : ComponentRegistry) (cls : PyClass) :
    ComponentRegistry × PyClass :=
  (⟨r.loaders, dictSet r.processors cls.name cls, r.writers⟩, cls)

/-- Modelled from the spec: register_writer, as register_loader but for the
writer role. -/
def ComponentRegistry.register_writer (r : ComponentRegistry) (cls : PyClass) :
    ComponentRegistry × PyClass :=
  (⟨r.loaders, r.processors, dictSet r.writers cls.name cls⟩, cls)

/-- The UnknownComponentError message: it names the role and the requested
name, as the spec requires. -/
def unknownComponentMsg (role nm : String) : String :=
  "Unknown " ++ role ++ " component: " ++ nm

/-- Modelled from the spec: get_loader looks the name up in the loader
mapping, fails with an UnknownComponentError (ValueError-class, per the
tests) naming role and name if absent, and otherwise constructs an instance
with the given keyword arguments. -/
def ComponentRegistry.get_loader (r : ComponentRegistry) (nm : String)
    (kwargs : List (String × Val)) : Except PyErr PyObject :=
  match alistLookup r.loaders nm with
  | none => Except.error (PyErr.valueError (unknownComponentMsg "loader" nm))
  | some cls => Except.ok (cls.construct kwargs)

/-- Modelled from the spec: get_processor, as get_loader but for the
processor role. -/
def ComponentRegistry.get_processor (r : ComponentRegistry) (nm : String)
    (kwargs : List (String × Val)) : Except PyErr PyObject :=
  match alistLookup r.processors nm with
  | none => Except.error (PyErr.valueError (unknownComponentMsg "processor" nm))
  | some cls => Except.ok (cls.construct kwargs)

/-- Modelled from the spec: get_writer, as get_loader but for the writer
role. -/
def ComponentRegistry.get_writer (r : ComponentRegistry) (nm : String)
    (kwargs : List (String × Val)) : Except PyErr PyObject :=
  match alistLookup r.writers nm with
  | none => Except.error (PyErr.valueError (unknownComponentMsg "writer" nm))
  | some cls => Except.ok (cls.construct kwargs)

/-- Modelled from the spec: the Pipeline's run-relevant state (spec section
4.4), whose implementation file dfpipe/core/pipeline.py is missing from
src/.  The loader field holds the outcome the acquirer produces when invoked
(error models a raised exception), each processor is a dataset-to-dataset
stage that may raise, and the writer consumes the final dataset and may
raise. -/
structure Pipeline where
  name : String
  loader : Option (Except Unit DataFrame)
  processors : List (DataFrame → Except Unit DataFrame)
  writer : Option (DataFrame → Except Unit Unit)

/-- Modelled from the spec: validate — runnable only if both a loader and a
writer are set; the processor list may be empty. -/
def Pipeline.validate (p : Pipeline) : Bool :=
  p.loader.isSome && p.writer.isSome

/-- How one run() invocation touched the stages: the boolean outcome,
whether the loader was invoked, how many processors were invoked, and
whether the writer was invoked.  This mirrors what the pipeline tests
observe through mock call assertions. -/
structure RunResult where
  ok : Bool
  loadCalled : Bool
  processCalls : Nat
  writeCalled : Bool
deriving DecidableEq, Repr

/-- Feed the dataset through the processors strictly in insertion order,
stopping at the first raising processor; also counts how many processors
were invoked. -/
def processChain : List (DataFrame → Except Unit DataFrame) → DataFrame →
    Except Unit DataFrame × Nat
  | [], d => (Except.ok d, 0)
  | p :: rest, d =>
    match p d with
    | Except.error e => (Except.error e, 1)
    | Except.ok d2 =>
      match processChain rest d2 with
      | (r, n) => (r, n + 1)

/-- Modelled from the spec: Pipeline.run (spec section 4.4) — validation
failure reports failure with no stage invoked; a loader exception is a
failure with nothing further invoked; an empty acquired dataset is a success
that skips processors and writer; a processor exception is a failure that
skips the writer; an empty dataset after the chain is a success that skips
the writer; a writer exception is a failure.  The function is total: run
never raises, every stage exception is converted into a false outcome. -/
def Pipeline.run (p : Pipeline) : RunResult :=
  match p.loader, p.writer with
  | some ld, some wr =>
    (match ld with
     | Except.error _ => ⟨false, true, 0, false⟩
     | Except.ok data =>
       if data.isEmpty then ⟨true, true, 0, false⟩
       else
         match processChain p.processors data with
         | (Except.error _, n) => ⟨false, true, n, false⟩
         | (Except.ok final, n) =>
           if final.isEmpty then ⟨true, true, n, false⟩
           else
             match wr final with
             | Except.error _ => ⟨false, true, n, true⟩
             | Except.ok _ => ⟨true, true, n, true⟩)
  | _, _ => ⟨false, false, 0, false⟩

/-- A registry lookup event, recording which role mapping was consulted and
for which name — what the pipeline tests observe via mock call assertions on
the registry. -/
inductive Lookup where
  | loaderLookup (nm : String)
  | processorLookup (nm : String)
  | writerLookup (nm : String)
deriving DecidableEq, Repr

/-- One component entry of a declarative configuration: a component name and
its keyword parameters. -/
structure ComponentConfig where
  name : String
  params : List (String × Val)
deriving DecidableEq, Repr

/-- Modelled from the spec: the declarative configuration shape consumed by
from_config (spec section 6) — optional pipeline name, optional loader and
writer entries, optional order-significant processors list. -/
structure PipelineConfig where
  name : Option String
  loader : Option ComponentConfig
  processors : Option (List ComponentConfig)
  writer : Option ComponentConfig
deriving DecidableEq, Repr

/-- The pipeline composition from_config produces: resolved component
instances per role. -/
structure BuiltPipeline where
  name : String
  loader : Option PyObject
  processors : List PyObject
  writer : Option PyObject
deriving DecidableEq, Repr

/-- Modelled from the spec: loader resolution inside from_config — absence
of the loader key leaves the loader unset with no registry lookup; a present
entry is resolved through the registry, and a resolution failure propagates
unchanged. -/
def resolveLoader (r : ComponentRegistry) :
    Option ComponentConfig → Except PyErr (Option PyObject × List Lookup)
  | none => Except.ok (none, [])
  | some c =>
    match r.get_loader c.name c.params with
    | Except.error e => Except.error e
    | Except.ok obj => Except.ok (some obj, [Lookup.loaderLookup c.name])

/-- Modelled from the spec: writer resolution inside from_config, same
pattern as loader resolution. -/
def resolveWriter (r : ComponentRegistry) :
    Option ComponentConfig → Except PyErr (Option PyObject × List Lookup)
  | none => Except.ok (none, [])
  | some c =>
    match r.get_writer c.name c.params with
    | Except.error e => Except.error e
    | Except.ok obj => Except.ok (some obj, [Lookup.writerLookup c.name])

/-- Modelled from the spec: processor-list resolution inside from_config —
an entry with an empty name is silently skipped (no registry lookup, nothing
appended); a non-empty entry is resolved through the registry and appended
in list order; a resolution failure propagates unchanged. -/
def resolveProcessors (r : ComponentRegistry) :
    List ComponentConfig → Except PyErr (List PyObject × List Lookup)
  | [] => Except.ok ([], [])
  | c :: rest =>
    if c.name = "" then resolveProcessors r rest
    else
      match r.get_processor c.name c.params with
      | Except.error e => Except.error e
      | Except.ok obj =>
        match resolveProcessors r rest with
        | Except.error e => Except.error e
        | Except.ok (objs, lks) =>
          Except.ok (obj :: objs, Lookup.processorLookup c.name :: lks)

/-- Modelled from the spec: Pipeline.from_config (spec section 4.4) —
declarative construction resolving loader, processors and writer through the
registry; any resolution failure propagates unchanged; the result also
carries the registry lookups that were made, in order. -/
def Pipeline.from_config (cfg : PipelineConfig) (r : ComponentRegistry) :
    Except PyErr (BuiltPipeline × List Lookup) :=
  match resolveLoader r cfg.loader with
  | Except.error e => Except.error e
  | Except.ok (ld, l1) =>
    match resolveProcessors r (cfg.processors.getD []) with
    | Except.error e => Except.error e
    | Except.ok (ps, l2) =>
      match resolveWriter r cfg.writer with
      | Except.error e => Except.error e
      | Except.ok (wr, l3) =>
        Except.ok (⟨cfg.name.getD "Pipeline", ld, ps, wr⟩, l1 ++ l2 ++ l3)

/-- A Python abstract class as the set of abstract methods still to be
implemented (Python ABCMeta tracks exactly this set). -/
structure PyAbstractClass where
  abstractMethods : List String

/-- Modelled from the spec: the DataLoader stage base class (spec section
4.1; dfpipe/core/base.py is missing from src/) declaring the abstract
operation load. -/
def DataLoaderBase : PyAbstractClass := ⟨["load"]⟩

/-- Modelled from the spec: the DataProcessor stage base class declaring the
abstract operation process. -/
def DataProcessorBase : PyAbstractClass := ⟨["process"]⟩

/-- Modelled from the spec: the DataWriter stage base class declaring the
abstract operation write. -/
def DataWriterBase : PyAbstractClass := ⟨["write"]⟩

/-- Deriving a subclass: the subclass's remaining abstract methods are the
base's abstract methods minus those the subclass overrides (Python ABCMeta
semantics). -/
def subclassOf (base : PyAbstractClass) (overridden : List String) :
    PyAbstractClass :=
  ⟨base.abstractMethods.filter (fun m => ! overridden.contains m)⟩

/-- A successfully constructed stage object, carrying the name/descriptor
identity pair of spec section 3. -/
structure StageInstance where
  stageName : String
  stageDescr : String
deriving DecidableEq, Repr

/-- Modelled from the spec and Python ABC semantics: instantiating a class
succeeds only when no abstract method remains unimplemented; otherwise it
raises a TypeError before any stage work can occur. -/
def instantiate (c : PyAbstractClass) (nm ds : String) :
    Except PyErr StageInstance :=
  if c.abstractMethods.isEmpty then Except.ok ⟨nm, ds⟩
  else
    Except.error (PyErr.typeError
      "Cannot instantiate abstract class with unimplemented abstract methods")

/-! Concrete instances used by the witness theorems, mirroring the fixtures
of the repository's unit tests. -/

/-- The three-column fixture of the processor tests (ids, values and a
category column). -/
def dfCat : DataFrame :=
  ⟨[("id", [Val.vint 1, Val.vint 2, Val.vint 3]),
    ("value", [Val.vint 10, Val.vint 20, Val.vint 30]),
    ("category", [Val.vstr "A", Val.vstr "B", Val.vstr "C"])]⟩

/-- The dataset the mocked loader of the pipeline tests produces. -/
def dfRun : DataFrame :=
  ⟨[("id", [Val.vint 1, Val.vint 2, Val.vint 3]),
    ("value", [Val.vint 10, Val.vint 20, Val.vint 30])]⟩

/-- The empty dataset (no columns, no rows). -/
def dfEmpty : DataFrame := ⟨[]⟩

/-- A processor stage that passes the dataset through unchanged. -/
def okProc : DataFrame → Except Unit DataFrame := fun d => Except.ok d

/-- A processor stage that raises. -/
def failProc : DataFrame → Except Unit DataFrame := fun _ => Except.error ()

/-- A processor stage that filters everything out. -/
def toEmptyProc : DataFrame → Except Unit DataFrame := fun _ => Except.ok dfEmpty

/-- A writer stage that succeeds. -/
def okWriter : DataFrame → Except Unit Unit := fun _ => Except.ok ()

/-- A writer stage that raises. -/
def errWriter : DataFrame → Except Unit Unit := fun _ => Except.error ()

/-- A pipeline whose loader raises. -/
def pLoadErr : Pipeline := ⟨"P", some (Except.error ()), [okProc], some okWriter⟩

/-- A pipeline whose single processor raises. -/
def pProcErr : Pipeline := ⟨"P", some (Except.ok dfRun), [failProc], some okWriter⟩

/-- A pipeline whose writer raises. -/
def pWriteErr : Pipeline := ⟨"P", some (Except.ok dfRun), [okProc], some errWriter⟩

/-- A pipeline whose loader returns the empty dataset. -/
def pEmptyLoad : Pipeline := ⟨"P", some (Except.ok dfEmpty), [okProc], some okWriter⟩

/-- A pipeline whose processor chain filters the dataset down to empty. -/
def pEmptyChain : Pipeline := ⟨"P", some (Except.ok dfRun), [toEmptyProc], some okWriter⟩

/-- A filter against a column absent from the fixture. -/
def fpAbsent : FilterProcessor := ⟨"non_existent", Condition.value (Val.vstr "A")⟩

/-- A filter whose user predicate raises on every cell (division by zero in
the original test). -/
def fpRaise : FilterProcessor := ⟨"value", Condition.pred (fun _ => none)⟩

/-- A value mapper against a column absent from the fixture. -/
def tpAbsent : TransformProcessor := ⟨"non_existent", (fun v => some v), none⟩

/-- A value mapper whose user function raises on every cell. -/
def tpRaise : TransformProcessor := ⟨"value", (fun _ => none), none⟩

/-- The empty registry. -/
def reg0 : ComponentRegistry := ⟨[], [], []⟩

/-- The TestLoader class of the registry tests. -/
def clsTestLoader : PyClass := ⟨"TestLoader", fun kw => ⟨"TestLoader", kw⟩⟩

/-- The keyword arguments of the registry round-trip test. -/
def kwargs0 : List (String × Val) := [("test_param", Val.vstr "value")]

/-- The rename mapping of the Column Editor rename scenario. -/
def mpRen : List (String × String) := [("id", "ID"), ("value", "VALUE")]

/-- The four-column input of the Fields Organizer scenario. -/
def dfOrg : DataFrame :=
  ⟨[("col_3", [Val.vint 1, Val.vint 2, Val.vint 3]),
    ("col_1", [Val.vint 4, Val.vint 5, Val.vint 6]),
    ("col_2", [Val.vint 7, Val.vint 8, Val.vint 9]),
    ("col_4", [Val.vint 10, Val.vint 11, Val.vint 12])]⟩

/-- The Fields Organizer of the concrete scenario: target columns col_2,
col_1, col_5 with 100 as default for col_5. -/
def foOrg : FieldsOrganizer := ⟨["col_2", "col_1", "col_5"], [("col_5", Val.vint 100)]⟩

/-- Column Editor parameters with every keyword absent. -/
def paramsNone : ColumnParams := ⟨none, none, none, none⟩

/-- Column Editor parameters carrying only a rename mapping. -/
def renameProcParams (m : List (String × String)) : ColumnParams :=
  ⟨none, none, none, some m⟩

/-- The CSVWriter class of the from_config tests. -/
def clsCSVWriter : PyClass := ⟨"CSVWriter", fun kw => ⟨"CSVWriter", kw⟩⟩

/-- The FilterProcessor class of the from_config tests. -/
def clsFilterProcessor : PyClass := ⟨"FilterProcessor", fun kw => ⟨"FilterProcessor", kw⟩⟩

/-- A registry holding one processor class and one writer class. -/
def regW : ComponentRegistry :=
  ⟨[], [("FilterProcessor", clsFilterProcessor)], [("CSVWriter", clsCSVWriter)]⟩

/-- The configuration of the empty-processor-name and no-loader tests: no
loader entry, one processors entry with an empty name, one writer entry. -/
def cfgW : PipelineConfig :=
  ⟨some "NoLoaderPipeline", none, some [⟨"", []⟩], some ⟨"CSVWriter", []⟩⟩

/-- The pipeline from_config builds from that configuration. -/
def bpW : BuiltPipeline := ⟨"NoLoaderPipeline", none, [], some ⟨"CSVWriter", []⟩⟩

/-- The registry lookups that configuration causes: only the writer is
resolved. -/
def lksW : List Lookup := [Lookup.writerLookup "CSVWriter"]

/-! Helper lemmas. -/

/-- If the user callable raises on some cell, the whole cell-wise
application raises. -/
theorem mapOption_eq_none {α β : Type} (f : α → Option β) :
    ∀ l : List α, (∃ c ∈ l, f c = none) → mapOption f l = none := by
  intro l
  induction l with
  | nil => intro h; simp at h
  | cons x xs ih =>
    intro h
    obtain ⟨c, hc, hfc⟩ := h
    rcases List.mem_cons.mp hc with rfl | hmem
    · cases h2 : mapOption f xs <;> simp [mapOption, hfc, h2]
    · have hxs := ih ⟨c, hmem, hfc⟩
      cases h1 : f x <;> simp [mapOption, h1, hxs]

/-- C3: for every input dataset, a FilterProcessor or TransformProcessor
whose configured column is absent, or whose user callable raises on some
cell of the data, returns the input dataset unchanged (same columns, same
values, same order) — the operation is all-or-nothing, and in this total
model process never raises. -/
theorem processor_defensive_pass_through (fp : FilterProcessor)
    (tp : TransformProcessor) (d : DataFrame) :
    (d.getCol fp.column = none → fp.process d = d) ∧
    (∀ cells, d.getCol fp.column = some cells →
      (∃ c ∈ cells, fp.condition.eval c = none) → fp.process d = d) ∧
    (d.getCol tp.column = none → tp.process d = d) ∧
    (∀ cells, d.getCol tp.column = some cells →
      (∃ c ∈ cells, tp.transform_func c = none) → tp.process d = d) := by
  refine ⟨?_, ?_, ?_, ?_⟩
  · intro h; simp [FilterProcessor.process, h]
  · intro cells h he
    have hn := mapOption_eq_none _ cells he
    simp [FilterProcessor.process, h, hn]
  · intro h; simp [TransformProcessor.process, h]
  · intro cells h he
    have hn := mapOption_eq_none _ cells he
    simp [TransformProcessor.process, h, hn]

/-- Witness for C3 at the processor-test fixtures: absent column and raising
callable, for both the filter and the value mapper. -/
theorem processor_defensive_pass_through_witness :
    fpAbsent.process dfCat = dfCat ∧ fpRaise.process dfCat = dfCat ∧
    tpAbsent.process dfRun = dfRun ∧ tpRaise.process dfRun = dfRun :=
  ⟨(processor_defensive_pass_through fpAbsent tpAbsent dfCat).1 (by decide),
   (processor_defensive_pass_through fpRaise tpRaise dfCat).2.1
     [Val.vint 10, Val.vint 20, Val.vint 30] (by decide) (by decide),
   (processor_defensive_pass_through fpAbsent tpAbsent dfRun).2.2.1 (by decide),
   (processor_defensive_pass_through fpRaise tpRaise dfRun).2.2.2
     [Val.vint 10, Val.vint 20, Val.vint 30] (by decide) (by decide)⟩

/-- Processors after a raising processor are not invoked: running the chain
through a prefix that succeeds and then a raising stage yields the error with
exactly the prefix stages plus the raising stage invoked, regardless of the
stages that follow. -/
theorem processChain_append_error (pf : DataFrame → Except Unit DataFrame)
    (ps2 : List (DataFrame → Except Unit DataFrame)) :
    ∀ (ps1 : List (DataFrame → Except Unit DataFrame)) (d d1 : DataFrame) (n1 : Nat),
      processChain ps1 d = (Except.ok d1, n1) →
      pf d1 = Except.error () →
      processChain (ps1 ++ pf :: ps2) d = (Except.error (), n1 + 1) := by
  intro ps1
  induction ps1 with
  | nil =>
    intro d d1 n1 h hf
    simp [processChain] at h
    obtain ⟨h1, h2⟩ := h
    subst h1; subst h2
    simp [processChain, hf]
  | cons p ps ih =>
    intro d d1 n1 h hf
    cases hp : p d with
    | error e =>
      simp only [processChain, hp] at h
      simp at h
    | ok d2 =>
      simp only [processChain, hp] at h
      cases hpc : processChain ps d2 with
      | mk r n =>
        rw [hpc] at h
        simp only [Prod.mk.injEq] at h
        obtain ⟨hr, hn⟩ := h
        subst hr
        subst hn
        have hrec := ih d2 d1 n hpc hf
        simp only [List.cons_append, processChain, hp, List.append_eq, hrec]

/-- C1: for every pipeline with an acquirer, transformers and a persister
set, run never raises (the model is a total function) and converts stage
exceptions to a false outcome: a loader exception means no processor and no
writer is invoked; a processor exception means the writer is not invoked,
and processors after the raising one are not invoked; a writer exception
still yields a false return. -/
theorem pipeline_run_contains_stage_errors (p : Pipeline)
    (ld : Except Unit DataFrame) (wr : DataFrame → Except Unit Unit)
    (hld : p.loader = some ld) (hwr : p.writer = some wr) :
    (ld = Except.error () → p.run = ⟨false, true, 0, false⟩) ∧
    (∀ d n, ld = Except.ok d → d.isEmpty = false →
      processChain p.processors d = (Except.error (), n) →
      p.run = ⟨false, true, n, false⟩) ∧
    (∀ d final n, ld = Except.ok d → d.isEmpty = false →
      processChain p.processors d = (Except.ok final, n) → final.isEmpty = false →
      wr final = Except.error () → p.run = ⟨false, true, n, true⟩) ∧
    (∀ (ps1 ps2 : List (DataFrame → Except Unit DataFrame))
       (pf : DataFrame → Except Unit DataFrame) (d d1 : DataFrame) (n1 : Nat),
      processChain ps1 d = (Except.ok d1, n1) → pf d1 = Except.error () →
      processChain (ps1 ++ pf :: ps2) d = (Except.error (), n1 + 1)) := by
  refine ⟨?_, ?_, ?_, ?_⟩
  · intro h; subst h
    simp [Pipeline.run, hld, hwr]
  · intro d n h hde hpc; subst h
    simp [Pipeline.run, hld, hwr, hde, hpc]
  · intro d final n h hde hpc hfe hwe; subst h
    simp [Pipeline.run, hld, hwr, hde, hpc, hfe, hwe]
  · intro ps1 ps2 pf d d1 n1 h hf
    exact processChain_append_error pf ps2 ps1 d d1 n1 h hf

/-- Witness for C1 at concrete pipelines: a raising loader, a raising
processor, a raising writer, and a chain where a stage after the raising
processor is never invoked. -/
theorem pipeline_run_contains_stage_errors_witness :
    pLoadErr.run = ⟨false, true, 0, false⟩ ∧
    pProcErr.run = ⟨false, true, 1, false⟩ ∧
    pWriteErr.run = ⟨false, true, 1, true⟩ ∧
    processChain ([okProc] ++ failProc :: [okProc]) dfRun = (Except.error (), 1 + 1) :=
  ⟨(pipeline_run_contains_stage_errors pLoadErr (Except.error ()) okWriter rfl rfl).1 rfl,
   (pipeline_run_contains_stage_errors pProcErr (Except.ok dfRun) okWriter rfl rfl).2.1
     dfRun 1 rfl (by decide) rfl,
   (pipeline_run_contains_stage_errors pWriteErr (Except.ok dfRun) errWriter rfl rfl).2.2.1
     dfRun dfRun 1 rfl (by decide) rfl (by decide) rfl,
   (pipeline_run_contains_stage_errors pLoadErr (Except.error ()) okWriter rfl rfl).2.2.2
     [okProc] [okProc] failProc dfRun dfRun 1 rfl rfl⟩

/-- C2: for every valid pipeline (acquirer and persister set), an acquirer
returning an empty dataset makes run return true with no transformer and no
persister invoked; a transformer chain producing an empty dataset makes run
return true with the persister not invoked. -/
theorem pipeline_run_empty_short_circuit (p : Pipeline)
    (ld : Except Unit DataFrame) (wr : DataFrame → Except Unit Unit)
    (hld : p.loader = some ld) (hwr : p.writer = some wr) :
    (∀ d, ld = Except.ok d → d.isEmpty = true →
      p.run = ⟨true, true, 0, false⟩) ∧
    (∀ d final n, ld = Except.ok d → d.isEmpty = false →
      processChain p.processors d = (Except.ok final, n) → final.isEmpty = true →
      p.run = ⟨true, true, n, false⟩) := by
  constructor
  · intro d h hde; subst h
    simp [Pipeline.run, hld, hwr, hde]
  · intro d final n h hde hpc hfe; subst h
    simp [Pipeline.run, hld, hwr, hde, hpc, hfe]

/-- Witness for C2 at concrete pipelines: an empty acquired dataset and a
chain that filters everything out. -/
theorem pipeline_run_empty_short_circuit_witness :
    pEmptyLoad.run = ⟨true, true, 0, false⟩ ∧
    pEmptyChain.run = ⟨true, true, 1, false⟩ :=
  ⟨(pipeline_run_empty_short_circuit pEmptyLoad (Except.ok dfEmpty) okWriter rfl rfl).1
     dfEmpty rfl (by decide),
   (pipeline_run_empty_short_circuit pEmptyChain (Except.ok dfRun) okWriter rfl rfl).2
     dfRun dfEmpty 1 rfl (by decide) rfl (by decide)⟩

/-- Looking up the key of a just-set entry yields the head entry. -/
theorem alistLookup_cons_eq {β : Type} (x : String × β) (l : List (String × β))
    (k : String) (h : (x.1 == k) = true) : alistLookup (x :: l) k = some x.2 := by
  simp [alistLookup, List.find?, h]

/-- Lookup skips a head entry with a different key. -/
theorem alistLookup_cons_ne {β : Type} (x : String × β) (l : List (String × β))
    (k : String) (h : (x.1 == k) = false) : alistLookup (x :: l) k = alistLookup l k := by
  simp [alistLookup, List.find?, h]

/-- Overwriting an existing key makes lookup of that key return the new
value. -/
theorem alistLookup_overwrite {β : Type} (k : String) (v : β) :
    ∀ m : List (String × β), m.any (fun kv => kv.1 == k) = true →
      alistLookup (m.map (fun kv => if kv.1 == k then (k, v) else kv)) k = some v := by
  intro m
  induction m with
  | nil => intro h; simp at h
  | cons kv rest ih =>
    intro h
    by_cases hk : kv.1 = k
    · have step : (if kv.1 == k then (k, v) else kv) = (k, v) := by simp [hk]
      simp only [List.map_cons, step]
      exact alistLookup_cons_eq (k, v) _ k (by simp)
    · have hne : (kv.1 == k) = false := by simp [hk]
      have h2 : rest.any (fun kv => kv.1 == k) = true := by
        simpa [List.any_cons, hne] using h
      have step : (if kv.1 == k then (k, v) else kv) = kv := by simp [hne]
      simp only [List.map_cons, step]
      rw [alistLookup_cons_ne kv _ k hne]
      exact ih h2

/-- Appending a fresh key makes lookup of that key return the appended
value. -/
theorem alistLookup_append_absent {β : Type} (k : String) (v : β) :
    ∀ m : List (String × β), m.any (fun kv => kv.1 == k) = false →
      alistLookup (m ++ [(k, v)]) k = some v := by
  intro m
  induction m with
  | nil =>
    intro _
    simpa using alistLookup_cons_eq (k, v) [] k (by simp)
  | cons kv rest ih =>
    intro h
    cases hne : (kv.1 == k) with
    | true =>
      rw [List.any_cons, hne] at h
      simp at h
    | false =>
      rw [List.any_cons, hne] at h
      rw [List.cons_append, alistLookup_cons_ne kv _ k hne]
      exact ih (by simpa using h)

/-- Dict assignment followed by lookup of the same key yields the assigned
value (last writer wins). -/
theorem alistLookup_dictSet_self {β : Type} (m : List (String × β)) (k : String) (v : β) :
    alistLookup (dictSet m k v) k = some v := by
  unfold dictSet
  cases h : m.any (fun kv => kv.1 == k) with
  | true =>
    rw [if_pos rfl]
    exact alistLookup_overwrite k v m h
  | false =>
    rw [if_neg (by simp)]
    exact alistLookup_append_absent k v m h

/-- C4: registry round-trip — after registering a constructor for a role,
getting the class's name for that role with keyword arguments returns the
instance that constructor builds from those keyword arguments; getting a
name not registered for the role fails with an UnknownComponentError
(ValueError-class) whose message names the role and the requested name. -/
theorem registry_get_round_trip (r : ComponentRegistry) (cls : PyClass)
    (kwargs : List (String × Val)) (nm role : String) :
    ((r.register_loader cls).1.get_loader cls.name kwargs
       = Except.ok (cls.construct kwargs)) ∧
    ((r.register_processor cls).1.get_processor cls.name kwargs
       = Except.ok (cls.construct kwargs)) ∧
    ((r.register_writer cls).1.get_writer cls.name kwargs
       = Except.ok (cls.construct kwargs)) ∧
    (alistLookup r.loaders nm = none →
      r.get_loader nm kwargs
        = Except.error (PyErr.valueError (unknownComponentMsg "loader" nm))) ∧
    (alistLookup r.processors nm = none →
      r.get_processor nm kwargs
        = Except.error (PyErr.valueError (unknownComponentMsg "processor" nm))) ∧
    (alistLookup r.writers nm = none →
      r.get_writer nm kwargs
        = Except.error (PyErr.valueError (unknownComponentMsg "writer" nm))) ∧
    (∃ pre mid, unknownComponentMsg role nm = pre ++ role ++ mid ++ nm) := by
  refine ⟨?_, ?_, ?_, ?_, ?_, ?_, ?_⟩
  · simp [ComponentRegistry.register_loader, ComponentRegistry.get_loader,
      alistLookup_dictSet_self]
  · simp [ComponentRegistry.register_processor, ComponentRegistry.get_processor,
      alistLookup_dictSet_self]
  · simp [ComponentRegistry.register_writer, ComponentRegistry.get_writer,
      alistLookup_dictSet_self]
  · intro h; simp [ComponentRegistry.get_loader, h]
  · intro h; simp [ComponentRegistry.get_processor, h]
  · intro h; simp [ComponentRegistry.get_writer, h]
  · exact ⟨"Unknown ", " component: ", rfl⟩

/-- Witness for C4: the TestLoader round trip of the registry tests, and the
unknown-name failure on the empty registry. -/
theorem registry_get_round_trip_witness :
    ((reg0.register_loader clsTestLoader).1.get_loader "TestLoader" kwargs0
       = Except.ok ⟨"TestLoader", kwargs0⟩) ∧
    (reg0.get_loader "NonExistentLoader" kwargs0
       = Except.error (PyErr.valueError
           (unknownComponentMsg "loader" "NonExistentLoader"))) ∧
    (∃ pre mid, unknownComponentMsg "loader" "NonExistentLoader"
       = pre ++ "loader" ++ mid ++ "NonExistentLoader") :=
  ⟨(registry_get_round_trip reg0 clsTestLoader kwargs0 "x" "x").1,
   (registry_get_round_trip reg0 clsTestLoader kwargs0 "NonExistentLoader" "loader").2.2.2.1 rfl,
   (registry_get_round_trip reg0 clsTestLoader kwargs0 "NonExistentLoader" "loader").2.2.2.2.2.2⟩

/-- C9: each registration operation takes only the component class, derives
the registration key from the class's own name attribute, stores the class
under that key in its role's mapping, and returns the class itself unchanged
(decorator usage). -/
theorem registry_register_by_class_name (r : ComponentRegistry) (cls : PyClass) :
    ((r.register_loader cls).2 = cls) ∧
    (alistLookup (r.register_loader cls).1.loaders cls.name = some cls) ∧
    ((r.register_processor cls).2 = cls) ∧
    (alistLookup (r.register_processor cls).1.processors cls.name = some cls) ∧
    ((r.register_writer cls).2 = cls) ∧
    (alistLookup (r.register_writer cls).1.writers cls.name = some cls) :=
  ⟨rfl, alistLookup_dictSet_self r.loaders cls.name cls, rfl,
   alistLookup_dictSet_self r.processors cls.name cls, rfl,
   alistLookup_dictSet_self r.writers cls.name cls⟩

/-- C5: a ColumnProcessor rename applies only the mapping keys present as
columns — every column keeps its cells and is renamed through the
present-keys-only mapping — and when the effective mapping is empty the
input is returned unchanged with the original column names; construction
with a rename mapping succeeds. -/
theorem column_rename_present_keys_only (m : List (String × String)) (d : DataFrame) :
    (ColumnProcessor.mk? "rename" (renameProcParams m)
       = Except.ok ⟨"rename", renameProcParams m⟩) ∧
    ((m.filter (fun kv => d.hasCol kv.1)).isEmpty = false →
      ColumnProcessor.process ⟨"rename", renameProcParams m⟩ d
        = ⟨d.cols.map (fun nc =>
            (renameName (m.filter (fun kv => d.hasCol kv.1)) nc.1, nc.2))⟩) ∧
    ((m.filter (fun kv => d.hasCol kv.1)).isEmpty = true →
      ColumnProcessor.process ⟨"rename", renameProcParams m⟩ d = d) := by
  refine ⟨rfl, ?_, ?_⟩
  · intro h
    simp [ColumnProcessor.process, renameProcParams, h]
  · intro h
    simp [ColumnProcessor.process, renameProcParams, h]

/-- Witness for C5: the concrete rename scenario — columns id, value,
category with mapping id to ID and value to VALUE yield ID, VALUE, category
with values untouched; the empty mapping leaves the dataset unchanged. -/
theorem column_rename_present_keys_only_witness :
    (ColumnProcessor.process ⟨"rename", renameProcParams mpRen⟩ dfCat
       = ⟨dfCat.cols.map (fun nc =>
           (renameName (mpRen.filter (fun kv => dfCat.hasCol kv.1)) nc.1, nc.2))⟩) ∧
    ((ColumnProcessor.process ⟨"rename", renameProcParams mpRen⟩ dfCat).colNames
       = ["ID", "VALUE", "category"]) ∧
    (ColumnProcessor.process ⟨"rename", renameProcParams ([] : List (String × String))⟩ dfCat
       = dfCat) :=
  ⟨(column_rename_present_keys_only mpRen dfCat).2.1 (by decide),
   by decide,
   (column_rename_present_keys_only [] dfCat).2.2 (by decide)⟩

/-- C6: FieldsOrganizer.process returns a dataset whose columns are exactly
target_columns in that order; every output column is either copied verbatim
from the input or, when absent from the input, synthesized as the configured
default (or the empty string) repeated for every row. -/
theorem fields_organizer_exact_columns (f : FieldsOrganizer) (d : DataFrame) :
    ((f.process d).colNames = f.target_columns) ∧
    (∀ nm cells, (nm, cells) ∈ (f.process d).cols →
      (d.getCol nm = some cells ∨
       (d.getCol nm = none ∧
        cells = List.replicate d.numRows (f.defaultFor nm)))) := by
  constructor
  · have key : ∀ ts : List String, List.map (fun nc => nc.1)
        (List.map (fun name =>
          match d.getCol name with
          | some cells => (name, cells)
          | none => (name, List.replicate d.numRows (f.defaultFor name))) ts) = ts := by
      intro ts
      induction ts with
      | nil => rfl
      | cons t ts ih =>
        cases hg : d.getCol t <;> simp [hg, ih]
    exact key f.target_columns
  · intro nm cells hmem
    simp only [FieldsOrganizer.process] at hmem
    obtain ⟨t, ht, heq⟩ := List.mem_map.mp hmem
    cases hg : d.getCol t with
    | some cs =>
      rw [hg] at heq
      have h1 : t = nm := congrArg Prod.fst heq
      have h2 : cs = cells := congrArg Prod.snd heq
      subst h1; subst h2
      exact Or.inl hg
    | none =>
      rw [hg] at heq
      have h1 : t = nm := congrArg Prod.fst heq
      have h2 : List.replicate d.numRows (f.defaultFor t) = cells :=
        congrArg Prod.snd heq
      subst h1
      exact Or.inr ⟨hg, h2.symm⟩

/-- Witness for C6: the concrete scenario — input columns col_3, col_1,
col_2, col_4 with targets col_2, col_1, col_5 and default 100 for col_5
yields exactly those three columns, col_5 filled with 100. -/
theorem fields_organizer_exact_columns_witness :
    ((foOrg.process dfOrg).colNames = ["col_2", "col_1", "col_5"]) ∧
    (foOrg.process dfOrg
       = ⟨[("col_2", [Val.vint 7, Val.vint 8, Val.vint 9]),
           ("col_1", [Val.vint 4, Val.vint 5, Val.vint 6]),
           ("col_5", [Val.vint 100, Val.vint 100, Val.vint 100])]⟩) ∧
    (dfOrg.getCol "col_5" = some [Val.vint 100, Val.vint 100, Val.vint 100] ∨
     (dfOrg.getCol "col_5" = none ∧
      [Val.vint 100, Val.vint 100, Val.vint 100]
        = List.replicate dfOrg.numRows (foOrg.defaultFor "col_5"))) :=
  ⟨(fields_organizer_exact_columns foOrg dfOrg).1,
   by decide,
   (fields_organizer_exact_columns foOrg dfOrg).2 "col_5"
     [Val.vint 100, Val.vint 100, Val.vint 100] (by decide)⟩

/-- C7: constructing a ColumnProcessor with an operation outside add, drop,
rename, or with the required parameter for the chosen operation missing
(column for add, columns for drop, mapping for rename), fails with a
ValueError; with the required parameter present construction succeeds —
strict, unlike process, which is total and passes bad shapes through. -/
theorem column_processor_ctor_validation (op : String) (params : ColumnParams) :
    (op ≠ "add" → op ≠ "drop" → op ≠ "rename" →
      ColumnProcessor.mk? op params
        = Except.error (PyErr.valueError ("Unsupported operation: " ++ op))) ∧
    (params.column = none →
      ColumnProcessor.mk? "add" params
        = Except.error (PyErr.valueError "add operation requires the column parameter")) ∧
    (params.columns = none →
      ColumnProcessor.mk? "drop" params
        = Except.error (PyErr.valueError "drop operation requires the columns parameter")) ∧
    (params.mapping = none →
      ColumnProcessor.mk? "rename" params
        = Except.error (PyErr.valueError "rename operation requires the mapping parameter")) ∧
    (params.column.isSome = true →
      ColumnProcessor.mk? "add" params = Except.ok ⟨"add", params⟩) ∧
    (params.columns.isSome = true →
      ColumnProcessor.mk? "drop" params = Except.ok ⟨"drop", params⟩) ∧
    (params.mapping.isSome = true →
      ColumnProcessor.mk? "rename" params = Except.ok ⟨"rename", params⟩) := by
  refine ⟨?_, ?_, ?_, ?_, ?_, ?_, ?_⟩
  · intro h1 h2 h3
    simp [ColumnProcessor.mk?, h1, h2, h3]
  · intro h; simp [ColumnProcessor.mk?, h]
  · intro h; simp [ColumnProcessor.mk?, h]
  · intro h; simp [ColumnProcessor.mk?, h]
  · intro h
    cases hc : params.column with
    | none => rw [hc] at h; simp at h
    | some x => simp [ColumnProcessor.mk?, hc]
  · intro h
    cases hc : params.columns with
    | none => rw [hc] at h; simp at h
    | some x => simp [ColumnProcessor.mk?, hc]
  · intro h
    cases hc : params.mapping with
    | none => rw [hc] at h; simp at h
    | some x => simp [ColumnProcessor.mk?, hc]

/-- Witness for C7: the invalid operation of the tests and the three
missing-parameter cases, all at empty parameters. -/
theorem column_processor_ctor_validation_witness :
    (ColumnProcessor.mk? "invalid" paramsNone
       = Except.error (PyErr.valueError ("Unsupported operation: " ++ "invalid"))) ∧
    (ColumnProcessor.mk? "add" paramsNone
       = Except.error (PyErr.valueError "add operation requires the column parameter")) ∧
    (ColumnProcessor.mk? "drop" paramsNone
       = Except.error (PyErr.valueError "drop operation requires the columns parameter")) ∧
    (ColumnProcessor.mk? "rename" paramsNone
       = Except.error (PyErr.valueError "rename operation requires the mapping parameter")) :=
  ⟨(column_processor_ctor_validation "invalid" paramsNone).1
     (by decide) (by decide) (by decide),
   (column_processor_ctor_validation "invalid" paramsNone).2.1 rfl,
   (column_processor_ctor_validation "invalid" paramsNone).2.2.1 rfl,
   (column_processor_ctor_validation "invalid" paramsNone).2.2.2.1 rfl⟩

/-- C10: the three stage base classes are abstract — a subclass that does
not override its role's operation (load, process or write) cannot be
instantiated and fails with a TypeError; a subclass that does override it
instantiates successfully. -/
theorem stage_base_abstract_instantiation (ov : List String) (nm ds : String) :
    (ov.contains "load" = false → ∃ msg,
      instantiate (subclassOf DataLoaderBase ov) nm ds
        = Except.error (PyErr.typeError msg)) ∧
    (ov.contains "process" = false → ∃ msg,
      instantiate (subclassOf DataProcessorBase ov) nm ds
        = Except.error (PyErr.typeError msg)) ∧
    (ov.contains "write" = false → ∃ msg,
      instantiate (subclassOf DataWriterBase ov) nm ds
        = Except.error (PyErr.typeError msg)) ∧
    (ov.contains "load" = true →
      instantiate (subclassOf DataLoaderBase ov) nm ds = Except.ok ⟨nm, ds⟩) ∧
    (ov.contains "process" = true →
      instantiate (subclassOf DataProcessorBase ov) nm ds = Except.ok ⟨nm, ds⟩) ∧
    (ov.contains "write" = true →
      instantiate (subclassOf DataWriterBase ov) nm ds = Except.ok ⟨nm, ds⟩) := by
  refine ⟨?_, ?_, ?_, ?_, ?_, ?_⟩
  · intro h
    have h2 : ¬ ("load" ∈ ov) := by simpa using h
    exact ⟨"Cannot instantiate abstract class with unimplemented abstract methods",
      by simp [instantiate, subclassOf, DataLoaderBase, List.filter, h2]⟩
  · intro h
    have h2 : ¬ ("process" ∈ ov) := by simpa using h
    exact ⟨"Cannot instantiate abstract class with unimplemented abstract methods",
      by simp [instantiate, subclassOf, DataProcessorBase, List.filter, h2]⟩
  · intro h
    have h2 : ¬ ("write" ∈ ov) := by simpa using h
    exact ⟨"Cannot instantiate abstract class with unimplemented abstract methods",
      by simp [instantiate, subclassOf, DataWriterBase, List.filter, h2]⟩
  · intro h
    have h2 : "load" ∈ ov := by simpa using h
    simp [instantiate, subclassOf, DataLoaderBase, List.filter, h2]
  · intro h
    have h2 : "process" ∈ ov := by simpa using h
    simp [instantiate, subclassOf, DataProcessorBase, List.filter, h2]
  · intro h
    have h2 : "write" ∈ ov := by simpa using h
    simp [instantiate, subclassOf, DataWriterBase, List.filter, h2]

/-- Witness for C10: subclasses overriding nothing fail to instantiate for
all three roles; a loader subclass overriding load instantiates. -/
theorem stage_base_abstract_instantiation_witness :
    (∃ msg, instantiate (subclassOf DataLoaderBase []) "invalid" "desc"
       = Except.error (PyErr.typeError msg)) ∧
    (∃ msg, instantiate (subclassOf DataProcessorBase []) "invalid" "desc"
       = Except.error (PyErr.typeError msg)) ∧
    (∃ msg, instantiate (subclassOf DataWriterBase []) "invalid" "desc"
       = Except.error (PyErr.typeError msg)) ∧
    (instantiate (subclassOf DataLoaderBase ["load"]) "test_loader" "d"
       = Except.ok ⟨"test_loader", "d"⟩) :=
  ⟨(stage_base_abstract_instantiation [] "invalid" "desc").1 rfl,
   (stage_base_abstract_instantiation [] "invalid" "desc").2.1 rfl,
   (stage_base_abstract_instantiation [] "invalid" "desc").2.2.1 rfl,
   (stage_base_abstract_instantiation ["load"] "test_loader" "d").2.2.2.1 (by decide)⟩

/-- Skipping empty-name entries: resolving a processors list is the same as
resolving the list with empty-name entries filtered out. -/
theorem resolveProcessors_skip_empty (r : ComponentRegistry) :
    ∀ entries : List ComponentConfig,
      resolveProcessors r entries
        = resolveProcessors r (entries.filter (fun c => ! (c.name == ""))) := by
  intro entries
  induction entries with
  | nil => rfl
  | cons c rest ih =>
    by_cases h : c.name = ""
    · simp [resolveProcessors, List.filter_cons, h, ih]
    · simp [resolveProcessors, List.filter_cons, h, ih]

/-- Every lookup a successful processors resolution makes is a processor
lookup. -/
theorem resolveProcessors_lookup_shape (r : ComponentRegistry) :
    ∀ (entries : List ComponentConfig) (objs : List PyObject) (lks : List Lookup),
      resolveProcessors r entries = Except.ok (objs, lks) →
      ∀ lk ∈ lks, ∃ n, lk = Lookup.processorLookup n := by
  intro entries
  induction entries with
  | nil =>
    intro objs lks h lk hmem
    simp only [resolveProcessors, Except.ok.injEq, Prod.mk.injEq] at h
    obtain ⟨h1, h2⟩ := h
    rw [← h2] at hmem
    simp at hmem
  | cons c rest ih =>
    intro objs lks h lk hmem
    by_cases hc : c.name = ""
    · simp only [resolveProcessors, if_pos hc] at h
      exact ih objs lks h lk hmem
    · simp only [resolveProcessors, if_neg hc] at h
      cases hg : r.get_processor c.name c.params with
      | error e => rw [hg] at h; simp at h
      | ok obj =>
        rw [hg] at h
        cases hr : resolveProcessors r rest with
        | error e => rw [hr] at h; simp at h
        | ok pr =>
          obtain ⟨objs2, lks2⟩ := pr
          rw [hr] at h
          simp only [Except.ok.injEq, Prod.mk.injEq] at h
          obtain ⟨h1, h2⟩ := h
          rw [← h2] at hmem
          rcases List.mem_cons.mp hmem with rfl | hm2
          · exact ⟨c.name, rfl⟩
          · exact ih objs2 lks2 hr lk hm2

/-- Every lookup a successful loader resolution makes is a loader lookup. -/
theorem resolveLoader_lookup_shape (r : ComponentRegistry) :
    ∀ (oc : Option ComponentConfig) (obj : Option PyObject) (lks : List Lookup),
      resolveLoader r oc = Except.ok (obj, lks) →
      ∀ lk ∈ lks, ∃ n, lk = Lookup.loaderLookup n := by
  intro oc obj lks h lk hmem
  cases oc with
  | none =>
    simp only [resolveLoader, Except.ok.injEq, Prod.mk.injEq] at h
    obtain ⟨h1, h2⟩ := h
    rw [← h2] at hmem
    simp at hmem
  | some c =>
    simp only [resolveLoader] at h
    cases hg : r.get_loader c.name c.params with
    | error e => rw [hg] at h; simp at h
    | ok o =>
      rw [hg] at h
      simp only [Except.ok.injEq, Prod.mk.injEq] at h
      obtain ⟨h1, h2⟩ := h
      rw [← h2] at hmem
      rcases List.mem_cons.mp hmem with rfl | hm
      · exact ⟨c.name, rfl⟩
      · simp at hm

/-- Every lookup a successful writer resolution makes is a writer lookup. -/
theorem resolveWriter_lookup_shape (r : ComponentRegistry) :
    ∀ (oc : Option ComponentConfig) (obj : Option PyObject) (lks : List Lookup),
      resolveWriter r oc = Except.ok (obj, lks) →
      ∀ lk ∈ lks, ∃ n, lk = Lookup.writerLookup n := by
  intro oc obj lks h lk hmem
  cases oc with
  | none =>
    simp only [resolveWriter, Except.ok.injEq, Prod.mk.injEq] at h
    obtain ⟨h1, h2⟩ := h
    rw [← h2] at hmem
    simp at hmem
  | some c =>
    simp only [resolveWriter] at h
    cases hg : r.get_writer c.name c.params with
    | error e => rw [hg] at h; simp at h
    | ok o =>
      rw [hg] at h
      simp only [Except.ok.injEq, Prod.mk.injEq] at h
      obtain ⟨h1, h2⟩ := h
      rw [← h2] at hmem
      rcases List.mem_cons.mp hmem with rfl | hm
      · exact ⟨c.name, rfl⟩
      · simp at hm

/-- C8: from_config silently skips processors entries with an empty name
(same result as filtering them out, with no registry lookup), resolves
non-empty entries through the registry and appends them in list order, and
an absent loader (or writer) key leaves that component unset without any
lookup of that role. -/
theorem from_config_resolution (r : ComponentRegistry) (cfg : PipelineConfig) :
    (Pipeline.from_config cfg r
       = Pipeline.from_config
           ⟨cfg.name, cfg.loader,
            some ((cfg.processors.getD []).filter (fun c => ! (c.name == ""))),
            cfg.writer⟩ r) ∧
    (∀ (c : ComponentConfig) (rest : List ComponentConfig) (obj : PyObject)
       (objs : List PyObject) (lks : List Lookup), ¬ c.name = "" →
      r.get_processor c.name c.params = Except.ok obj →
      resolveProcessors r rest = Except.ok (objs, lks) →
      resolveProcessors r (c :: rest)
        = Except.ok (obj :: objs, Lookup.processorLookup c.name :: lks)) ∧
    (cfg.loader = none → ∀ (bp : BuiltPipeline) (lks : List Lookup),
      Pipeline.from_config cfg r = Except.ok (bp, lks) →
      bp.loader = none ∧ ∀ n, Lookup.loaderLookup n ∉ lks) ∧
    (cfg.writer = none → ∀ (bp : BuiltPipeline) (lks : List Lookup),
      Pipeline.from_config cfg r = Except.ok (bp, lks) →
      bp.writer = none ∧ ∀ n, Lookup.writerLookup n ∉ lks) := by
  refine ⟨?_, ?_, ?_, ?_⟩
  · simp only [Pipeline.from_config, Option.getD_some]
    rw [resolveProcessors_skip_empty r (cfg.processors.getD [])]
  · intro c rest obj objs lks hne hget hrest
    simp [resolveProcessors, hne, hget, hrest]
  · intro hl bp lks hok
    simp only [Pipeline.from_config, hl, resolveLoader] at hok
    cases hp : resolveProcessors r (cfg.processors.getD []) with
    | error e => rw [hp] at hok; simp at hok
    | ok pr =>
      obtain ⟨ps, l2⟩ := pr
      rw [hp] at hok
      cases hw : resolveWriter r cfg.writer with
      | error e => rw [hw] at hok; simp at hok
      | ok wpr =>
        obtain ⟨wr, l3⟩ := wpr
        rw [hw] at hok
        simp only [Except.ok.injEq, Prod.mk.injEq] at hok
        obtain ⟨hbp, hlks⟩ := hok
        constructor
        · rw [← hbp]
        · intro n hmem
          rw [← hlks] at hmem
          simp only [List.nil_append, List.mem_append] at hmem
          rcases hmem with hm | hm
          · obtain ⟨n2, hn2⟩ := resolveProcessors_lookup_shape r _ ps l2 hp _ hm
            simp at hn2
          · obtain ⟨n2, hn2⟩ := resolveWriter_lookup_shape r _ wr l3 hw _ hm
            simp at hn2
  · intro hw2 bp lks hok
    simp only [Pipeline.from_config, hw2, resolveWriter] at hok
    cases hl : resolveLoader r cfg.loader with
    | error e => rw [hl] at hok; simp at hok
    | ok lpr =>
      obtain ⟨ld, l1⟩ := lpr
      rw [hl] at hok
      cases hp : resolveProcessors r (cfg.processors.getD []) with
      | error e => rw [hp] at hok; simp at hok
      | ok pr =>
        obtain ⟨ps, l2⟩ := pr
        rw [hp] at hok
        simp only [Except.ok.injEq, Prod.mk.injEq] at hok
        obtain ⟨hbp, hlks⟩ := hok
        constructor
        · rw [← hbp]
        · intro n hmem
          rw [← hlks] at hmem
          simp only [List.append_nil, List.mem_append] at hmem
          rcases hmem with hm | hm
          · obtain ⟨n2, hn2⟩ := resolveLoader_lookup_shape r _ ld l1 hl _ hm
            simp at hn2
          · obtain ⟨n2, hn2⟩ := resolveProcessors_lookup_shape r _ ps l2 hp _ hm
            simp at hn2

/-- Witness for C8 at the no-loader, empty-processor-name configuration of
the tests: the empty-name entry is skipped, a non-empty entry resolves and
appends, the loader stays unset and no loader lookup happens. -/
theorem from_config_resolution_witness :
    (Pipeline.from_config cfgW regW
       = Pipeline.from_config
           ⟨cfgW.name, cfgW.loader,
            some ((cfgW.processors.getD []).filter (fun c => ! (c.name == ""))),
            cfgW.writer⟩ regW) ∧
    (resolveProcessors regW [⟨"FilterProcessor", [("column", Val.vstr "age")]⟩]
       = Except.ok ([⟨"FilterProcessor", [("column", Val.vstr "age")]⟩],
           [Lookup.processorLookup "FilterProcessor"])) ∧
    (bpW.loader = none) ∧
    (Lookup.loaderLookup "CSVLoader" ∉ lksW) :=
  ⟨(from_config_resolution regW cfgW).1,
   (from_config_resolution regW cfgW).2.1 ⟨"FilterProcessor", [("column", Val.vstr "age")]⟩ []
     ⟨"FilterProcessor", [("column", Val.vstr "age")]⟩ [] [] (by decide) rfl rfl,
   ((from_config_resolution regW cfgW).2.2.1 rfl bpW lksW rfl).1,
   ((from_config_resolution regW cfgW).2.2.1 rfl bpW lksW rfl).2 "CSVLoader"⟩
